import Mathlib

/-!
Verification development for the vipwrap repository.

Part 1 embeds the field-level validation schemas declared in `src/models.py`
and `src/vippy/models.py` (two revisions of the same two pandera
`DataFrameModel` schemas) together with a row-validation engine, and
Part 2 embeds the file-transfer client `src/vipwrap/gdi.py`.

Cell values are modelled as decimal strings; numeric range checks parse them
as exact decimals (mantissa / 10 ^ scale), which agrees with the float
comparison the source performs at every input considered here.
-/

/-- Check that a string's character length lies in the inclusive interval
[lo, hi]; embeds `pandera.Check.str_length(lo, hi)`. -/
def str_length (lo hi : Nat) (s : String) : Bool :=
  decide (lo ≤ s.length ∧ s.length ≤ hi)

/-- Check that a value is a member of the allowed list; embeds
`pandera.Check.isin(allowed)`. -/
def isin (allowed : List String) (s : String) : Bool :=
  decide (s ∈ allowed)

/-- All characters of the string are decimal digits. -/
def allDigits (s : String) : Bool :=
  s.toList.all Char.isDigit

/-- Full match of the regex `^\d+$`: one or more digits; embeds
`pandera.Check.str_matches(r"^\d+$")`. -/
def digitsPat (s : String) : Bool :=
  decide (1 ≤ s.length) && allDigits s

/-- Split a character list at every dot, keeping empty segments, mirroring
how a decimal literal decomposes into integer and fraction part. -/
def splitOnDot : List Char → List (List Char)
  | [] => [[]]
  | c :: rest =>
    match splitOnDot rest, decide (c = '.') with
    | r, true => [] :: r
    | [], false => [[c]]
    | h :: t, false => (c :: h) :: t

/-- Full match of the regex `^\d{1,maxInt}(\.\d{1,maxFrac})?$`: an integer part
of 1..maxInt digits, optionally a dot and a fractional part of 1..maxFrac
digits; embeds the `pandera.Check.str_matches` patterns of the source. -/
def decimalPat (maxInt maxFrac : Nat) (s : String) : Bool :=
  match splitOnDot s.toList with
  | [ipart] =>
      decide (1 ≤ ipart.length ∧ ipart.length ≤ maxInt) && ipart.all Char.isDigit
  | [ipart, fpart] =>
      decide (1 ≤ ipart.length ∧ ipart.length ≤ maxInt) && ipart.all Char.isDigit
        && decide (1 ≤ fpart.length ∧ fpart.length ≤ maxFrac) && fpart.all Char.isDigit
  | _ => false

/-- Exact decimal number `mantissa / 10 ^ scale`; used to give numeric range
checks exact semantics. -/
structure Dec where
  mantissa : Nat
  scale : Nat
deriving Repr, DecidableEq

/-- Numeric value of a list of digit characters. -/
def digitsVal (l : List Char) : Nat :=
  l.foldl (fun a c => a * 10 + (c.toNat - 48)) 0

/-- All elements of a character list are decimal digits and there is at least
one of them. -/
def digitsPart (l : List Char) : Bool :=
  decide (1 ≤ l.length) && l.all Char.isDigit

/-- Parse a decimal string (digits, optionally a dot and fraction digits) into
an exact decimal; other strings parse to none. -/
def parseDec (s : String) : Option Dec :=
  match splitOnDot s.toList with
  | [ipart] =>
      if digitsPart ipart then some ⟨digitsVal ipart, 0⟩ else none
  | [ipart, fpart] =>
      if digitsPart ipart && digitsPart fpart then
        some ⟨digitsVal (ipart ++ fpart), fpart.length⟩
      else none
  | _ => none

/-- Comparison of exact decimals by cross multiplication. -/
def decLe (a b : Dec) : Bool :=
  decide (a.mantissa * 10 ^ b.scale ≤ b.mantissa * 10 ^ a.scale)

/-- Check that the value parses to a number lying in the inclusive interval
[lo, hi]; embeds `pandera.Check.in_range(lo, hi)` (inclusive bounds). -/
def in_range (lo hi : Dec) (s : String) : Bool :=
  match parseDec s with
  | some v => decLe lo v && decLe v hi
  | none => false

/-- A field's compound rule: a list of (violation kind, predicate) pairs, all
of which must pass. -/
abbrev Checks := List (String × (String → Bool))

/-- A value passes a compound rule when every component check passes. -/
def passesAll (cs : Checks) (s : String) : Bool :=
  cs.all fun c => c.2 s

/-- The violation kinds of the component checks the value fails. -/
def failingKinds (cs : Checks) (s : String) : List String :=
  (cs.filter fun c => ! c.2 s).map Prod.fst

/-- One reported failure of a row's value against a rule: row index, field
name, violation kind and offending value (none when the field was absent). -/
structure Violation where
  rowIndex : Nat
  field : String
  kind : String
  value : Option String
deriving Repr, DecidableEq

/-- A field name bound to its required flag and its compound rule, mirroring
one `pandera.Field` declaration of a `DataFrameModel`.  pandera fields are
required by default and no field of the source sets `required=False`, so all
embedded bindings carry `required := true`. -/
structure FieldBinding where
  name : String
  required : Bool
  checks : Checks

/-- A row of a dataset: an association list from field name to raw value.
A name missing from the list models an absent cell; the empty string models
an empty (null) cell. -/
abbrev VRow := List (String × String)

/-- Look a field up in a row. -/
def lookupField : VRow → String → Option String
  | [], _ => none
  | (k, v) :: rest, n => if k = n then some v else lookupField rest n

/-- Modelled from the spec: the evaluation engine that applies a schema's
field bindings to one row is the external pandera library, not code of this
repository; section 4.3 of the spec gives its algorithm.  A required field
that is absent or empty yields one MissingRequiredField violation and its
checks are skipped; a present non-empty value is evaluated against every
component check without short-circuit, one violation per failing check.
Fields of the row not bound by the schema are ignored.  The source declares
no row-level conditional-requirement rule, so the engine evaluates field
bindings only. -/
def validateRow (schema : List FieldBinding) (idx : Nat) (row : VRow) :
    List Violation :=
  schema.flatMap fun b =>
    match lookupField row b.name with
    | none =>
        if b.required then [⟨idx, b.name, "MissingRequiredField", none⟩] else []
    | some v =>
        if v = "" then
          if b.required then [⟨idx, b.name, "MissingRequiredField", some v⟩]
          else []
        else
          b.checks.filterMap fun c =>
            if c.2 v then none else some ⟨idx, b.name, c.1, some v⟩

/-- Modelled from the spec: validate every row of a dataset against a schema,
accumulating all violations in row-major order. -/
def validate (schema : List FieldBinding) (rows : List VRow) : List Violation :=
  (rows.enum).flatMap fun p => validateRow schema p.1 p.2

namespace models

/-!
Embedding of `src/models.py`: the module-level field checks and the two
`DataFrameModel` schemas `OrderModel` and `InvoiceModel`.  Decimal bounds are
written as exact decimals: `⟨999999999, 2⟩` is the literal `9999999.99` of the
source, `⟨999999999999, 3⟩` is `999999999.999`.
-/

def codedate_check : Checks :=
  [("RangeViolation", in_range ⟨19700101, 0⟩ ⟨20991231, 0⟩)]

def company_check : Checks := [("LengthViolation", str_length 1 5)]

def deliverydate_check : Checks :=
  [("RangeViolation", in_range ⟨19700101, 0⟩ ⟨20991231, 0⟩)]

def depositamount_check : Checks :=
  [("RangeViolation", in_range ⟨0, 0⟩ ⟨999999999, 2⟩),
   ("PatternViolation", decimalPat 7 2)]

def discountamount_check : Checks :=
  [("RangeViolation", in_range ⟨0, 0⟩ ⟨999999999, 2⟩),
   ("PatternViolation", decimalPat 7 2)]

def discountcode_check : Checks := [("LengthViolation", str_length 1 10)]

def discountgroup_check : Checks := [("LengthViolation", str_length 1 10)]

def discountlevel_check : Checks := [("LengthViolation", str_length 1 1)]

def driver_check : Checks := [("LengthViolation", str_length 5 5)]

def ignoredeliverycharge_check : Checks :=
  [("LengthViolation", str_length 1 1), ("EnumViolation", isin ["Y", "N"])]

def invoicecomments_check : Checks := [("LengthViolation", str_length 1 560)]

def linenumber_check : Checks :=
  [("LengthViolation", str_length 3 3), ("PatternViolation", digitsPat)]

def loadnumber_check : Checks := [("LengthViolation", str_length 8 8)]

def orderaction_check : Checks := [("LengthViolation", str_length 1 2)]

def orderdate_check : Checks :=
  [("RangeViolation", in_range ⟨19700101, 0⟩ ⟨20991231, 0⟩)]

def ordermode_check : Checks :=
  [("LengthViolation", str_length 1 1),
   ("EnumViolation", isin ["0", "1", "2", "3"])]

def ordernumber_check : Checks := [("LengthViolation", str_length 1 9)]

def orderprice_check : Checks :=
  [("RangeViolation", in_range ⟨0, 0⟩ ⟨999999999999, 3⟩),
   ("PatternViolation", decimalPat 9 3)]

def ordertype_check : Checks :=
  [("LengthViolation", str_length 1 1), ("EnumViolation", isin ["S", "T"])]

def orderquantity_check : Checks := [("LengthViolation", str_length 5 5)]

def performancediscountanswer_check : Checks :=
  [("LengthViolation", str_length 1 1), ("EnumViolation", isin ["Y", "N"])]

def ponumber_check : Checks := [("LengthViolation", str_length 1 15)]

def postoffamount_check : Checks :=
  [("RangeViolation", in_range ⟨0, 0⟩ ⟨999999999, 2⟩),
   ("PatternViolation", decimalPat 7 2)]

def productcode_check : Checks := [("LengthViolation", str_length 6 6)]

def reasoncode_check : Checks := [("LengthViolation", str_length 2 2)]

def retailerid_check : Checks := [("LengthViolation", str_length 5 5)]

def salesrep_check : Checks := [("LengthViolation", str_length 1 5)]

def specialprice_check : Checks :=
  [("LengthViolation", str_length 1 1), ("EnumViolation", isin ["0", "1"])]

def unitofmeasure_check : Checks :=
  [("LengthViolation", str_length 2 2), ("EnumViolation", isin ["CW", "CB"])]

def voidflag_check : Checks :=
  [("LengthViolation", str_length 1 1), ("EnumViolation", isin ["Y", "N"])]

def warehouse_check : Checks := [("LengthViolation", str_length 1 5)]

/-- The `OrderModel` schema of `src/models.py`, fields in declaration order.
`required := true` everywhere: some fields say `required=True` explicitly and
the rest fall to pandera's default of required. -/
def orderModel : List FieldBinding :=
  [⟨"loadnumber", true, loadnumber_check⟩,
   ⟨"retailerid", true, retailerid_check⟩,
   ⟨"driver", true, driver_check⟩,
   ⟨"linenumber", true, linenumber_check⟩,
   ⟨"unitofmeasure", true, unitofmeasure_check⟩,
   ⟨"productcode", true, productcode_check⟩,
   ⟨"orderquantity", true, orderquantity_check⟩,
   ⟨"orderprice", true, orderprice_check⟩,
   ⟨"discountamount", true, discountamount_check⟩,
   ⟨"postoffamount", true, postoffamount_check⟩,
   ⟨"depositamount", true, depositamount_check⟩,
   ⟨"specialprice", true, specialprice_check⟩,
   ⟨"voidflag", true, voidflag_check⟩,
   ⟨"reasoncode", true, reasoncode_check⟩,
   ⟨"codedate", true, codedate_check⟩,
   ⟨"deliverydate", true, deliverydate_check⟩,
   ⟨"ponumber", true, ponumber_check⟩,
   ⟨"company", true, company_check⟩,
   ⟨"warehouse", true, warehouse_check⟩,
   ⟨"ordernumber", true, ordernumber_check⟩,
   ⟨"performancediscountanswer", true, performancediscountanswer_check⟩,
   ⟨"discountcode", true, discountcode_check⟩,
   ⟨"discountgroup", true, discountgroup_check⟩,
   ⟨"discountlevel", true, discountlevel_check⟩,
   ⟨"ignoredeliverycharge", true, ignoredeliverycharge_check⟩,
   ⟨"salesrep", true, salesrep_check⟩,
   ⟨"orderdate", true, orderdate_check⟩,
   ⟨"invoicecomments", true, invoicecomments_check⟩,
   ⟨"orderaction", true, orderaction_check⟩,
   ⟨"ordertype", true, ordertype_check⟩]

/-- The `InvoiceModel` schema of `src/models.py`: only three fields are
actually bound; every other field of the record (among them `productcode`,
`unitofmeasure`, `orderquantity`, `orderprice`) appears solely in comments
and is not part of the schema. -/
def invoiceModel : List FieldBinding :=
  [⟨"retailerid", true, retailerid_check⟩,
   ⟨"warehouse", true, warehouse_check⟩,
   ⟨"ordermode", true, ordermode_check⟩]

end models

namespace vippy

/-!
Embedding of `src/vippy/models.py`: a later revision of the same module with
additional invoice fields, a changed `driver_check` (1..5 instead of exactly
5) and a fully populated `InvoiceModel`.
-/

def arstatus_check : Checks :=
  [("LengthViolation", str_length 1 1), ("EnumViolation", isin ["1", "3"])]

def artype_check : Checks := [("LengthViolation", str_length 1 1)]

def codedate_check : Checks :=
  [("RangeViolation", in_range ⟨19700101, 0⟩ ⟨20991231, 0⟩)]

def company_check : Checks := [("LengthViolation", str_length 1 5)]

def deliverydate_check : Checks :=
  [("RangeViolation", in_range ⟨19700101, 0⟩ ⟨20991231, 0⟩)]

def depletionallowance_check : Checks :=
  [("RangeViolation", in_range ⟨0, 0⟩ ⟨99999999999, 5⟩),
   ("PatternViolation", decimalPat 6 5)]

def depositamount_check : Checks :=
  [("RangeViolation", in_range ⟨0, 0⟩ ⟨999999999, 2⟩),
   ("PatternViolation", decimalPat 7 2)]

def deposittype_check : Checks := [("LengthViolation", str_length 1 1)]

def discountamount_check : Checks :=
  [("RangeViolation", in_range ⟨0, 0⟩ ⟨999999999, 2⟩),
   ("PatternViolation", decimalPat 7 2)]

def discountcode_check : Checks := [("LengthViolation", str_length 1 10)]

def discountgroup_check : Checks := [("LengthViolation", str_length 1 10)]

def discountlevel_check : Checks := [("LengthViolation", str_length 1 1)]

def discountlevel10_check : Checks := [("LengthViolation", str_length 10 10)]

def driver_check : Checks := [("LengthViolation", str_length 1 5)]

def flpgroup_check : Checks := [("LengthViolation", str_length 1 5)]

def helper_check : Checks := [("LengthViolation", str_length 1 5)]

def ignoredeliverycharge_check : Checks :=
  [("LengthViolation", str_length 1 1), ("EnumViolation", isin ["Y", "N"])]

def invoicecomments_check : Checks := [("LengthViolation", str_length 1 560)]

def invoicedate_check : Checks :=
  [("RangeViolation", in_range ⟨19700101, 0⟩ ⟨20991231, 0⟩)]

def invoicenumber_check : Checks :=
  [("LengthViolation", str_length 1 15), ("PatternViolation", digitsPat)]

def invoicetype_check : Checks := [("LengthViolation", str_length 1 1)]

def linenumber_check : Checks :=
  [("LengthViolation", str_length 3 3), ("PatternViolation", digitsPat)]

def loadnumber_check : Checks := [("LengthViolation", str_length 8 8)]

def onhandquantity_check : Checks := [("LengthViolation", str_length 7 7)]

def orderaction_check : Checks := [("LengthViolation", str_length 1 2)]

def ordercost_check : Checks :=
  [("RangeViolation", in_range ⟨0, 0⟩ ⟨99999999999, 5⟩),
   ("PatternViolation", decimalPat 7 2)]

def orderdate_check : Checks :=
  [("RangeViolation", in_range ⟨19700101, 0⟩ ⟨20991231, 0⟩)]

def ordermode_check : Checks :=
  [("LengthViolation", str_length 1 1),
   ("EnumViolation", isin ["0", "1", "2", "3"])]

def ordernumber_check : Checks := [("LengthViolation", str_length 1 9)]

def orderprice_check : Checks :=
  [("RangeViolation", in_range ⟨0, 0⟩ ⟨999999999999, 3⟩),
   ("PatternViolation", decimalPat 9 3)]

def ordertype_check : Checks :=
  [("LengthViolation", str_length 1 1), ("EnumViolation", isin ["S", "T"])]

def orderquantity_check : Checks := [("LengthViolation", str_length 5 5)]

def outquantity_check : Checks := [("LengthViolation", str_length 5 5)]

def partialcasequantity_check : Checks := [("LengthViolation", str_length 2 2)]

def performancediscountanswer_check : Checks :=
  [("LengthViolation", str_length 1 1), ("EnumViolation", isin ["Y", "N"])]

def ponumber_check : Checks := [("LengthViolation", str_length 1 15)]

def postoffamount_check : Checks :=
  [("RangeViolation", in_range ⟨0, 0⟩ ⟨999999999, 2⟩),
   ("PatternViolation", decimalPat 7 2)]

def pricegroup_check : Checks := [("LengthViolation", str_length 1 5)]

def productcode_check : Checks := [("LengthViolation", str_length 6 6)]

def reasoncode_check : Checks := [("LengthViolation", str_length 2 2)]

def retailerid_check : Checks := [("LengthViolation", str_length 5 5)]

def salesrep_check : Checks := [("LengthViolation", str_length 1 5)]

def specialprice_check : Checks :=
  [("LengthViolation", str_length 1 1), ("EnumViolation", isin ["0", "1"])]

def subpricegroup_check : Checks := [("LengthViolation", str_length 1 5)]

def trucktype_check : Checks := [("LengthViolation", str_length 1 1)]

def unitofmeasure_check : Checks :=
  [("LengthViolation", str_length 2 2), ("EnumViolation", isin ["CW", "CB"])]

def voidflag_check : Checks :=
  [("LengthViolation", str_length 1 1), ("EnumViolation", isin ["Y", "N"])]

def voidreason_check : Checks := [("LengthViolation", str_length 1 2)]

def warehouse_check : Checks := [("LengthViolation", str_length 1 5)]

/-- The `OrderModel` schema of `src/vippy/models.py`, fields in declaration
order; identical to the `src/models.py` revision except that its
`driver_check` allows 1..5 characters. -/
def orderModel : List FieldBinding :=
  [⟨"loadnumber", true, loadnumber_check⟩,
   ⟨"retailerid", true, retailerid_check⟩,
   ⟨"driver", true, driver_check⟩,
   ⟨"linenumber", true, linenumber_check⟩,
   ⟨"unitofmeasure", true, unitofmeasure_check⟩,
   ⟨"productcode", true, productcode_check⟩,
   ⟨"orderquantity", true, orderquantity_check⟩,
   ⟨"orderprice", true, orderprice_check⟩,
   ⟨"discountamount", true, discountamount_check⟩,
   ⟨"postoffamount", true, postoffamount_check⟩,
   ⟨"depositamount", true, depositamount_check⟩,
   ⟨"specialprice", true, specialprice_check⟩,
   ⟨"voidflag", true, voidflag_check⟩,
   ⟨"reasoncode", true, reasoncode_check⟩,
   ⟨"codedate", true, codedate_check⟩,
   ⟨"deliverydate", true, deliverydate_check⟩,
   ⟨"ponumber", true, ponumber_check⟩,
   ⟨"company", true, company_check⟩,
   ⟨"warehouse", true, warehouse_check⟩,
   ⟨"ordernumber", true, ordernumber_check⟩,
   ⟨"performancediscountanswer", true, performancediscountanswer_check⟩,
   ⟨"discountcode", true, discountcode_check⟩,
   ⟨"discountgroup", true, discountgroup_check⟩,
   ⟨"discountlevel", true, discountlevel_check⟩,
   ⟨"ignoredeliverycharge", true, ignoredeliverycharge_check⟩,
   ⟨"salesrep", true, salesrep_check⟩,
   ⟨"orderdate", true, orderdate_check⟩,
   ⟨"invoicecomments", true, invoicecomments_check⟩,
   ⟨"orderaction", true, orderaction_check⟩,
   ⟨"ordertype", true, ordertype_check⟩]

/-- The `InvoiceModel` schema of `src/vippy/models.py`, fields in declaration
order.  `unitofmeasure`, `orderquantity` and `orderprice` are NOT bound: they
appear only in comments reading "required if productcode specified". -/
def invoiceModel : List FieldBinding :=
  [⟨"retailerid", true, retailerid_check⟩,
   ⟨"invoicenumber", true, invoicenumber_check⟩,
   ⟨"invoicedate", true, invoicedate_check⟩,
   ⟨"arstatus", true, arstatus_check⟩,
   ⟨"ordertype", true, ordertype_check⟩,
   ⟨"loadnumber", true, loadnumber_check⟩,
   ⟨"driver", true, driver_check⟩,
   ⟨"helper1", true, helper_check⟩,
   ⟨"helper2", true, helper_check⟩,
   ⟨"helper3", true, helper_check⟩,
   ⟨"helper4", true, helper_check⟩,
   ⟨"helper5", true, helper_check⟩,
   ⟨"company", true, company_check⟩,
   ⟨"warehouse", true, warehouse_check⟩,
   ⟨"flpgroup", true, flpgroup_check⟩,
   ⟨"pricegroup", true, pricegroup_check⟩,
   ⟨"subpricegroup", true, subpricegroup_check⟩,
   ⟨"salesrep", true, salesrep_check⟩,
   ⟨"voidflag", true, voidflag_check⟩,
   ⟨"voidreason", true, voidreason_check⟩,
   ⟨"invoicetype", true, invoicetype_check⟩,
   ⟨"artype", true, artype_check⟩,
   ⟨"trucktype", true, trucktype_check⟩,
   ⟨"ponumber", true, ponumber_check⟩,
   ⟨"linenumber", true, linenumber_check⟩,
   ⟨"productcode", true, productcode_check⟩,
   ⟨"ordermode", true, ordermode_check⟩,
   ⟨"outquantity", true, outquantity_check⟩,
   ⟨"onhandquantity", true, onhandquantity_check⟩,
   ⟨"partialcasequantity", true, partialcasequantity_check⟩,
   ⟨"returnreasoncode", true, reasoncode_check⟩,
   ⟨"codedate", true, codedate_check⟩,
   ⟨"ordercost", true, ordercost_check⟩,
   ⟨"depositamount", true, depositamount_check⟩,
   ⟨"deposittype", true, deposittype_check⟩,
   ⟨"depletionallowance", true, depletionallowance_check⟩,
   ⟨"postoffamount", true, postoffamount_check⟩,
   ⟨"discountamount", true, discountamount_check⟩,
   ⟨"discountlevel1", true, discountlevel10_check⟩,
   ⟨"discountlevel2", true, discountlevel10_check⟩,
   ⟨"discountlevel3", true, discountlevel10_check⟩,
   ⟨"discountlevel4", true, discountlevel10_check⟩,
   ⟨"discountlevel", true, discountlevel_check⟩,
   ⟨"specialprice", true, specialprice_check⟩]

end vippy

namespace gdi

/-!
Embedding of `src/vipwrap/gdi.py`, the transfer client.  The network layer
(paramiko / ftplib) is abstracted: an upload attempt is an `Except` outcome,
a remote folder is the list of file names its listing returns, and per-file
transfers are recorded as events.
-/

/-- Python `str.startswith`: the second string is a character-wise initial
segment of the first. -/
def startswith (s p : String) : Bool :=
  p.toList.isPrefixOf s.toList

/-- Outcome trace of `send_file_to_gdi`: the final result, the list of
attempt indices whose loop body ran, and the list of backoff waits performed
(in seconds, one entry per `time.sleep`). -/
structure SendTrace where
  result : Except String Unit
  tried : List Nat
  waits : List Nat
deriving Repr

/-- One iteration of the try-block of `send_file_to_gdi`: dispatch on the
`ftp_method` string; for "sftp" or "ftp" the outcome is that of the
corresponding upload, otherwise `ValueError("Error, invalid FTP method")` is
raised — inside the try-block, exactly as in the source. -/
def attemptUpload (ftp_method : String) (upload : Except String Unit) :
    Except String Unit :=
  if ftp_method = "sftp" then upload
  else if ftp_method = "ftp" then upload
  else Except.error "Error, invalid FTP method"

/-- The `for attempt in range(3)` loop of `send_file_to_gdi` over the list of
remaining attempt indices.  `upload n` is the outcome the chosen protocol's
upload would produce on attempt `n` (attempts may differ since the network is
nondeterministic).  On success the loop breaks; on failure it sleeps 60
seconds and continues when `attempt < 2`, and re-raises otherwise. -/
def sendAttempts (ftp_method : String) (upload : Nat → Except String Unit) :
    List Nat → SendTrace
  | [] => ⟨Except.ok (), [], []⟩
  | a :: rest =>
    match attemptUpload ftp_method (upload a) with
    | Except.ok _ => ⟨Except.ok (), [a], []⟩
    | Except.error e =>
      if a < 2 then
        let t := sendAttempts ftp_method upload rest
        ⟨t.result, a :: t.tried, 60 :: t.waits⟩
      else ⟨Except.error e, [a], []⟩

/-- The function `send_file_to_gdi`: run the retry loop over the attempt
indices `range(3)`. -/
def send_file_to_gdi (ftp_method : String)
    (upload : Nat → Except String Unit) : SendTrace :=
  sendAttempts ftp_method upload [0, 1, 2]

/-- The function `upload_sftp`: after `sftp.put`, the local file size and the
size `sftp.stat` reports for the remote copy are compared and a mismatch
raises `ValueError`.  The put and stat themselves are abstracted into the two
observed sizes. -/
def upload_sftp (local_file_size remote_file_size : Nat) :
    Except String Unit :=
  if local_file_size ≠ remote_file_size then
    Except.error "Error, file sizes do not match"
  else Except.ok ()

/-- A per-file action the download/delete loops perform against the remote
server. -/
inductive RemoteEvent where
  | download (name : String)
  | delete (name : String)
deriving Repr, DecidableEq

/-- The loop body of `download_sftp` over the folder listing: each file whose
name starts with `file_string` is downloaded and, when the flag (named
`download_after_delete` in the source) is set, removed right after its own
download.  Returns the event trace in execution order and the listing of
files remaining on the server. -/
def download_sftp : List String → String → Bool → List RemoteEvent × List String
  | [], _, _ => ([], [])
  | f :: rest, file_string, download_after_delete =>
    let t := download_sftp rest file_string download_after_delete
    if startswith f file_string then
      if download_after_delete then
        (RemoteEvent.download f :: RemoteEvent.delete f :: t.1, t.2)
      else
        (RemoteEvent.download f :: t.1, f :: t.2)
    else (t.1, f :: t.2)

/-- The loop body of `download_ftp` over the `nlst` listing: the same
per-file algorithm as `download_sftp` (prefix filter, `retrbinary`, optional
`delete` right after the download). -/
def download_ftp : List String → String → Bool → List RemoteEvent × List String
  | [], _, _ => ([], [])
  | f :: rest, file_string, download_after_delete =>
    let t := download_ftp rest file_string download_after_delete
    if startswith f file_string then
      if download_after_delete then
        (RemoteEvent.download f :: RemoteEvent.delete f :: t.1, t.2)
      else
        (RemoteEvent.download f :: t.1, f :: t.2)
    else (t.1, f :: t.2)

/-- The loop of `delete_sftp` over the folder listing: every listed file
whose name equals `filename` is removed.  Returns the names removed and the
listing of files remaining; no branch raises. -/
def delete_sftp : List String → String → List String × List String
  | [], _ => ([], [])
  | f :: rest, filename =>
    let t := delete_sftp rest filename
    if f = filename then (f :: t.1, t.2) else (t.1, f :: t.2)

/-- The function `download_files_from_gdi`: dispatch on the protocol string,
raising `ValueError("Error, invalid FTP method")` for any other selector. -/
def download_files_from_gdi (ftp_method : String) (files : List String)
    (file_string : String) (delete_after_download : Bool) :
    Except String (List RemoteEvent × List String) :=
  if ftp_method = "sftp" then
    Except.ok (download_sftp files file_string delete_after_download)
  else if ftp_method = "ftp" then
    Except.ok (download_ftp files file_string delete_after_download)
  else Except.error "Error, invalid FTP method"

end gdi

/-- C1: the conditional requirement the spec states (orderquantity required
exactly when productcode is non-empty) is not what the code does.  Both
OrderModel revisions bind orderquantity with an unconditional required flag,
so a row whose productcode is empty still yields the MissingRequiredField
violation for orderquantity; and neither InvoiceModel revision binds
orderquantity at all (it appears only in the comment "required if productcode
specified"), so an invoice row with a non-empty productcode and no
orderquantity yields no orderquantity violation. -/
theorem orderquantity_required_unconditionally :
    ((validate models.orderModel [[("productcode", "")]]).filter
        (fun v => v.field = "orderquantity"))
      = [⟨0, "orderquantity", "MissingRequiredField", none⟩]
  ∧ ((validate vippy.orderModel [[("productcode", "")]]).filter
        (fun v => v.field = "orderquantity"))
      = [⟨0, "orderquantity", "MissingRequiredField", none⟩]
  ∧ ((validate models.invoiceModel [[("productcode", "ABC123")]]).filter
        (fun v => v.field = "orderquantity")) = []
  ∧ ((validate vippy.invoiceModel [[("productcode", "ABC123")]]).filter
        (fun v => v.field = "orderquantity")) = [] := by
  refine ⟨?_, ?_, ?_, ?_⟩ <;> decide

/-- C5: depositamount boundary behavior in both schema revisions: the value
9999999.99 passes both component checks; 9999999.999 fails the pattern check
(fraction longer than 2 digits); 10000000.00 fails the range check (above the
inclusive upper bound 9999999.99). -/
theorem depositamount_boundaries :
    passesAll models.depositamount_check "9999999.99" = true
  ∧ "PatternViolation" ∈ failingKinds models.depositamount_check "9999999.999"
  ∧ "RangeViolation" ∈ failingKinds models.depositamount_check "10000000.00"
  ∧ passesAll vippy.depositamount_check "9999999.99" = true
  ∧ "PatternViolation" ∈ failingKinds vippy.depositamount_check "9999999.999"
  ∧ "RangeViolation" ∈ failingKinds vippy.depositamount_check "10000000.00" := by
  refine ⟨?_, ?_, ?_, ?_, ?_, ?_⟩ <;> decide

/-- C6 counterexample: the claim says every schema revision accepts a driver
value exactly when its length is 5, but the vippy revision's driver check is
`str_length(1, 5)` and accepts the length-2 value "AB". -/
theorem driver_revision_disagrees :
    passesAll vippy.driver_check "AB" = true ∧ "AB".length = 2 := by
  exact ⟨by decide, by decide⟩

/-- C6 amended: the two revisions disagree.  In `src/models.py` a driver
value passes its check exactly when its length is 5 (so lengths 1..4 fail);
in `src/vippy/models.py` it passes exactly when its length is 1..5. -/
theorem driver_check_characterization (s : String) :
    (passesAll models.driver_check s = true ↔ s.length = 5)
  ∧ (passesAll vippy.driver_check s = true ↔ 1 ≤ s.length ∧ s.length ≤ 5) := by
  simp [passesAll, models.driver_check, vippy.driver_check, str_length]
  omega

/-- C7: the unitofmeasure check accepts "CW", rejects "KG" with exactly the
enumeration-membership violation, and the set of accepted values is exactly
the two-element set containing "CW" and "CB"; in both revisions. -/
theorem unitofmeasure_enum_exact :
    passesAll models.unitofmeasure_check "CW" = true
  ∧ failingKinds models.unitofmeasure_check "KG" = ["EnumViolation"]
  ∧ passesAll vippy.unitofmeasure_check "CW" = true
  ∧ failingKinds vippy.unitofmeasure_check "KG" = ["EnumViolation"]
  ∧ (∀ s, passesAll models.unitofmeasure_check s = true ↔ s = "CW" ∨ s = "CB")
  ∧ (∀ s, passesAll vippy.unitofmeasure_check s = true ↔ s = "CW" ∨ s = "CB") := by
  refine ⟨by decide, by decide, by decide, by decide, ?_, ?_⟩ <;>
  · intro s
    simp only [passesAll, models.unitofmeasure_check, vippy.unitofmeasure_check,
      List.all_cons, List.all_nil, Bool.and_true, Bool.and_eq_true, str_length,
      isin, decide_eq_true_eq, List.mem_cons, List.mem_singleton,
      List.not_mem_nil, or_false]
    constructor
    · rintro ⟨-, h⟩
      exact h
    · rintro (rfl | rfl) <;> exact ⟨by decide, by simp⟩

/-- For a valid protocol selector the try-block's outcome is the upload's
outcome. -/
theorem attemptUpload_valid (m : String) (hm : m = "sftp" ∨ m = "ftp")
    (x : Except String Unit) : gdi.attemptUpload m x = x := by
  rcases hm with rfl | rfl <;> rfl

/-- C2 counterexample: with the invalid protocol selector "scp" the send
operation performs two 60-second backoff waits and runs the loop body for all
three attempt indices before the invalid-protocol error reaches the caller —
not zero waits and zero retries as claimed (the ValueError is raised inside
the try-block, so the retry handler catches it). -/
theorem invalid_method_is_retried_cex :
    (gdi.send_file_to_gdi "scp" (fun _ => Except.ok ())).waits = [60, 60]
  ∧ (gdi.send_file_to_gdi "scp" (fun _ => Except.ok ())).tried = [0, 1, 2]
  ∧ ([60, 60] : List Nat) ≠ [] := by
  exact ⟨rfl, rfl, by decide⟩

/-- C2 amended: for every protocol selector other than "sftp" and "ftp", the
send operation raises the invalid-protocol error only after running the loop
body for all 3 attempt indices and performing 2 backoff waits of 60 seconds,
whatever the underlying upload would have done. -/
theorem invalid_method_retried_three_times (m : String)
    (u : Nat → Except String Unit) (h1 : m ≠ "sftp") (h2 : m ≠ "ftp") :
    gdi.send_file_to_gdi m u
      = ⟨Except.error "Error, invalid FTP method", [0, 1, 2], [60, 60]⟩ := by
  simp [gdi.send_file_to_gdi, gdi.sendAttempts, gdi.attemptUpload, h1, h2]

/-- C2 witness: the amended behavior at the concrete selector "scp". -/
theorem invalid_method_retried_witness :
    gdi.send_file_to_gdi "scp" (fun _ => Except.error "boom")
      = ⟨Except.error "Error, invalid FTP method", [0, 1, 2], [60, 60]⟩ :=
  invalid_method_retried_three_times "scp" (fun _ => Except.error "boom")
    (by decide) (by decide)

/-- C3: retry semantics of the send operation for a valid protocol selector:
two failures followed by a success give a successful result with exactly two
60-second waits; three failures propagate the third attempt's error with no
fourth attempt and no wait after the third failure; and no attempt index is
tried after a successful one. -/
theorem send_retry_semantics (m : String) (u : Nat → Except String Unit)
    (hm : m = "sftp" ∨ m = "ftp") :
    (∀ e0 e1, u 0 = Except.error e0 → u 1 = Except.error e1 →
      u 2 = Except.ok () →
      gdi.send_file_to_gdi m u = ⟨Except.ok (), [0, 1, 2], [60, 60]⟩)
  ∧ (∀ e0 e1 e2, u 0 = Except.error e0 → u 1 = Except.error e1 →
      u 2 = Except.error e2 →
      gdi.send_file_to_gdi m u = ⟨Except.error e2, [0, 1, 2], [60, 60]⟩)
  ∧ (∀ j k, u j = Except.ok () → j ∈ (gdi.send_file_to_gdi m u).tried →
      k ∈ (gdi.send_file_to_gdi m u).tried → k ≤ j) := by
  refine ⟨?_, ?_, ?_⟩
  · intro e0 e1 h0 h1 h2
    simp [gdi.send_file_to_gdi, gdi.sendAttempts, attemptUpload_valid m hm,
      h0, h1, h2]
  · intro e0 e1 e2 h0 h1 h2
    simp [gdi.send_file_to_gdi, gdi.sendAttempts, attemptUpload_valid m hm,
      h0, h1, h2]
  · intro j k hj hjt hkt
    match h0 : u 0 with
    | Except.ok _ =>
        simp [gdi.send_file_to_gdi, gdi.sendAttempts, attemptUpload_valid m hm,
          h0] at hjt hkt
        omega
    | Except.error e0 =>
      match h1 : u 1 with
      | Except.ok _ =>
          simp [gdi.send_file_to_gdi, gdi.sendAttempts,
            attemptUpload_valid m hm, h0, h1] at hjt hkt
          rcases hjt with rfl | rfl
          · rw [h0] at hj
            exact absurd hj (by simp)
          · omega
      | Except.error e1 =>
        match h2 : u 2 with
        | Except.ok _ =>
            simp [gdi.send_file_to_gdi, gdi.sendAttempts,
              attemptUpload_valid m hm, h0, h1, h2] at hjt hkt
            rcases hjt with rfl | rfl | rfl
            · rw [h0] at hj
              exact absurd hj (by simp)
            · rw [h1] at hj
              exact absurd hj (by simp)
            · omega
        | Except.error e2 =>
            simp [gdi.send_file_to_gdi, gdi.sendAttempts,
              attemptUpload_valid m hm, h0, h1, h2] at hjt hkt
            rcases hjt with rfl | rfl | rfl
            · rw [h0] at hj
              exact absurd hj (by simp)
            · rw [h1] at hj
              exact absurd hj (by simp)
            · omega

/-- Attempt outcomes failing twice and succeeding on the third attempt, used
to witness the retry semantics. -/
def failTwice : Nat → Except String Unit :=
  fun n => if n < 2 then Except.error "boom" else Except.ok ()

/-- C3 witness: the fail-fail-succeed schedule over sftp completes with
exactly two 60-second waits. -/
theorem send_retry_semantics_witness :
    gdi.send_file_to_gdi "sftp" failTwice
      = ⟨Except.ok (), [0, 1, 2], [60, 60]⟩ :=
  (send_retry_semantics "sftp" failTwice (Or.inl rfl)).1 "boom" "boom"
    rfl rfl rfl

/-- C4: the sftp upload compares the local and remote byte sizes after the
put and errors whenever they differ (succeeding exactly when they agree), and
an upload failing this way makes the send operation take its retry path: the
next attempt index is tried. -/
theorem size_mismatch_triggers_retry (l r : Nat) (h : l ≠ r) :
    (∃ msg, gdi.upload_sftp l r = Except.error msg)
  ∧ (∀ l2 r2, gdi.upload_sftp l2 r2 = Except.ok () ↔ l2 = r2)
  ∧ (∀ u : Nat → Except String Unit, u 0 = gdi.upload_sftp l r →
      1 ∈ (gdi.send_file_to_gdi "sftp" u).tried) := by
  refine ⟨⟨"Error, file sizes do not match", by simp [gdi.upload_sftp, h]⟩,
    ?_, ?_⟩
  · intro l2 r2
    by_cases h2 : l2 = r2 <;> simp [gdi.upload_sftp, h2]
  · intro u h0
    have he : u 0 = Except.error "Error, file sizes do not match" := by
      rw [h0]
      simp [gdi.upload_sftp, h]
    match h1 : u 1 with
    | Except.ok _ =>
        simp [gdi.send_file_to_gdi, gdi.sendAttempts, gdi.attemptUpload,
          he, h1]
    | Except.error e1 =>
      match h2 : u 2 with
      | Except.ok _ =>
          simp [gdi.send_file_to_gdi, gdi.sendAttempts, gdi.attemptUpload,
            he, h1, h2]
      | Except.error e2 =>
          simp [gdi.send_file_to_gdi, gdi.sendAttempts, gdi.attemptUpload,
            he, h1, h2]

/-- C4 witness: a 5-byte local file observed as 7 bytes remotely fails the
upload and the send operation goes on to a second attempt. -/
theorem size_mismatch_triggers_retry_witness :
    1 ∈ (gdi.send_file_to_gdi "sftp" (fun _ => gdi.upload_sftp 5 7)).tried :=
  (size_mismatch_triggers_retry 5 7 (by decide)).2.2
    (fun _ => gdi.upload_sftp 5 7) rfl

/-- The ftp download loop performs the same per-file algorithm as the sftp
one, so their traces coincide. -/
theorem download_ftp_eq_sftp (fs : String) (b : Bool) :
    ∀ files : List String,
      gdi.download_ftp files fs b = gdi.download_sftp files fs b := by
  intro files
  induction files with
  | nil => rfl
  | cons f rest ih => simp [gdi.download_ftp, gdi.download_sftp, ih]

/-- A download event appears in the sftp trace exactly for the listed files
whose name starts with the filter string. -/
theorem download_sftp_mem_iff (fs : String) (b : Bool) (f : String) :
    ∀ files : List String,
      (gdi.RemoteEvent.download f ∈ (gdi.download_sftp files fs b).1
        ↔ f ∈ files ∧ gdi.startswith f fs = true) := by
  intro files
  induction files with
  | nil => simp [gdi.download_sftp]
  | cons g rest ih =>
    by_cases hg : gdi.startswith g fs = true
    · cases b <;> simp [gdi.download_sftp, hg, ih] <;>
      · constructor
        · rintro (rfl | hmem)
          · exact ⟨Or.inl rfl, hg⟩
          · exact ⟨Or.inr hmem.1, hmem.2⟩
        · rintro ⟨rfl | hmem, hsw⟩
          · exact Or.inl rfl
          · exact Or.inr ⟨hmem, hsw⟩
    · simp [gdi.download_sftp, hg, ih]
      exact fun hsw heq => absurd (heq ▸ hsw) hg

/-- With the flag unset the sftp download loop emits no delete event. -/
theorem download_sftp_no_delete (fs : String) (f : String) :
    ∀ files : List String,
      gdi.RemoteEvent.delete f ∉ (gdi.download_sftp files fs false).1 := by
  intro files
  induction files with
  | nil => simp [gdi.download_sftp]
  | cons g rest ih =>
    by_cases hg : gdi.startswith g fs = true <;>
      simp [gdi.download_sftp, hg, ih]

/-- Every delete event in the sftp trace is preceded by the download event of
the same file. -/
theorem download_sftp_delete_preceded (fs : String) (b : Bool) (f : String) :
    ∀ (files : List String) (pre post : List gdi.RemoteEvent),
      (gdi.download_sftp files fs b).1
        = pre ++ gdi.RemoteEvent.delete f :: post →
      gdi.RemoteEvent.download f ∈ pre := by
  intro files
  induction files with
  | nil =>
    intro pre post h
    simp [gdi.download_sftp] at h
  | cons g rest ih =>
    intro pre post h
    by_cases hg : gdi.startswith g fs = true
    · cases b
      · simp [gdi.download_sftp, hg] at h
        rcases pre with _ | ⟨p0, pre⟩
        · simp_all
        · simp only [List.cons_append, List.cons.injEq] at h
          obtain ⟨rfl, ht⟩ := h
          exact List.mem_cons_of_mem _ (ih pre post ht)
      · simp [gdi.download_sftp, hg] at h
        rcases pre with _ | ⟨p0, pre⟩
        · simp_all
        · rcases pre with _ | ⟨p1, pre⟩
          · simp only [List.cons_append, List.nil_append,
              List.cons.injEq] at h
            obtain ⟨rfl, hdel, -⟩ := h
            simp only [gdi.RemoteEvent.delete.injEq] at hdel
            simp [hdel]
          · simp only [List.cons_append, List.cons.injEq] at h
            obtain ⟨rfl, rfl, ht⟩ := h
            exact List.mem_cons_of_mem _
              (List.mem_cons_of_mem _ (ih pre post ht))
    · simp [gdi.download_sftp, hg] at h
      exact ih pre post h

/-- C8: for either protocol, the fetch operation downloads exactly the listed
files whose name starts with the given filter string; a delete event occurs
only when the delete-after flag is set; and every delete event is preceded in
the trace by that same file's download. -/
theorem fetch_files_events (m : String) (files : List String) (fs : String)
    (flag : Bool) (evs : List gdi.RemoteEvent) (rem : List String)
    (h : gdi.download_files_from_gdi m files fs flag
      = Except.ok (evs, rem)) :
    (∀ f, f ∈ files → gdi.startswith f fs = true →
      gdi.RemoteEvent.download f ∈ evs)
  ∧ (∀ f, gdi.RemoteEvent.download f ∈ evs →
      f ∈ files ∧ gdi.startswith f fs = true)
  ∧ (∀ f, gdi.RemoteEvent.delete f ∈ evs → flag = true)
  ∧ (∀ f pre post, evs = pre ++ gdi.RemoteEvent.delete f :: post →
      gdi.RemoteEvent.download f ∈ pre) := by
  have hev : evs = (gdi.download_sftp files fs flag).1 := by
    by_cases h1 : m = "sftp"
    · simp [gdi.download_files_from_gdi, h1] at h
      exact (congrArg Prod.fst h).symm
    · by_cases h2 : m = "ftp"
      · simp [gdi.download_files_from_gdi, h1, h2,
          download_ftp_eq_sftp fs flag files] at h
        exact (congrArg Prod.fst h).symm
      · simp [gdi.download_files_from_gdi, h1, h2] at h
  subst hev
  refine ⟨?_, ?_, ?_, ?_⟩
  · intro f hf hsw
    exact (download_sftp_mem_iff fs flag f files).mpr ⟨hf, hsw⟩
  · intro f hf
    exact (download_sftp_mem_iff fs flag f files).mp hf
  · intro f hf
    cases flag
    · exact absurd hf (download_sftp_no_delete fs f files)
    · rfl
  · intro f pre post hsplit
    exact download_sftp_delete_preceded fs flag f files pre post hsplit

/-- C8 witness: fetching with filter "ab" and the delete flag set over the
listing ["abc", "xyz"] downloads "abc". -/
theorem fetch_files_events_witness :
    gdi.RemoteEvent.download "abc" ∈
      [gdi.RemoteEvent.download "abc", gdi.RemoteEvent.delete "abc"] :=
  (fetch_files_events "sftp" ["abc", "xyz"] "ab" true
      [gdi.RemoteEvent.download "abc", gdi.RemoteEvent.delete "abc"] ["xyz"]
      rfl).1 "abc" (by simp) (by decide)

/-- C9: when no listed file equals the given filename, the delete operation
removes nothing and leaves the remote listing unchanged; no branch of its
loop can raise, since the only remote removal is guarded by the equality
test. -/
theorem delete_missing_file_noop (files : List String) (filename : String)
    (h : filename ∉ files) :
    gdi.delete_sftp files filename = ([], files) := by
  induction files with
  | nil => rfl
  | cons f rest ih =>
    rw [List.mem_cons, not_or] at h
    obtain ⟨h1, h2⟩ := h
    have hf : ¬ f = filename := fun e => h1 e.symm
    simp [gdi.delete_sftp, hf, ih h2]

/-- C9 witness: deleting "c.dat" from a listing that does not contain it. -/
theorem delete_missing_file_noop_witness :
    gdi.delete_sftp ["a.dat", "b.dat"] "c.dat" = ([], ["a.dat", "b.dat"]) :=
  delete_missing_file_noop ["a.dat", "b.dat"] "c.dat" (by decide)

/-- C10: with the delete-after flag unset, neither download loop removes
anything: the remote listing after the call equals the listing before it, for
both protocols. -/
theorem download_no_delete_preserves_remote (files : List String)
    (fs : String) :
    (gdi.download_sftp files fs false).2 = files
  ∧ (gdi.download_ftp files fs false).2 = files := by
  have hs : ∀ l : List String, (gdi.download_sftp l fs false).2 = l := by
    intro l
    induction l with
    | nil => rfl
    | cons f rest ih =>
      by_cases hg : gdi.startswith f fs = true <;>
        simp [gdi.download_sftp, hg, ih]
  refine ⟨hs files, ?_⟩
  rw [download_ftp_eq_sftp fs false files]
  exact hs files

